import Mathlib

/-!
Verification development for the `pdf-highlight-api` repository.

The repository contains two FastAPI applications:
  * `src/main.py`   — endpoint `/highlight-pdf` plus `simulate_ai_analysis`;
  * `src/src/main.py` — endpoints `/`, `/gemini/document-analyze`,
    `/analyze-pdf`, `/gemini/pipe-shaft-detect`, `/detect-target-image`,
    and helpers `_create_image_previews`, `_create_highlighted_images`;
  * `src/src/infrastructure/gemini.py` — the Gemini model client with
    `_to_pixel_bbox`, `analyze_symbol_with_coordinates`,
    `analyze_image_with_coordinates`, `_retry_with_flexible_prompt`,
    `_enhanced_fallback_analysis` and `create_highlighted_image`.

The Python code is shallowly embedded below.  Remote-model calls, file
reads and image rasterisation are opaque effects; they appear as explicit
parameters (an `Outcome` describing how the request body processing ended,
oracle functions for the random generator, the parsed JSON of the model's
response, page image sizes).  Machine floats only feed coordinate
arithmetic that ends in `int(...)`/`round(...)`, modelled exactly on ℚ with
truncation `pyInt` and banker's rounding `pyRound`; Python's `str.lower`
is modelled on ASCII by `strLower` (every string the claims exercise is
ASCII).
-/

/-- Python `int(q)` for a real-valued `q`: truncation toward zero. -/
def pyInt (q : ℚ) : ℤ :=
  if q < 0 then ⌈q⌉ else ⌊q⌋

/-- Python 3 `round(q)` on exact values: round half to even. -/
def pyRound (q : ℚ) : ℤ :=
  let f := ⌊q⌋
  let r := q - f
  if r < 1/2 then f
  else if 1/2 < r then f + 1
  else if Even f then f else f + 1

/-! ## HTTP layer (src/main.py and src/src/main.py)

An endpoint body is a computation we cannot run (it reads the upload and
talks to Gemini); `Outcome` records how it ended.  `HttpResult` is the
response FastAPI sends: either the handler's return value or an
`HTTPException`'s status/detail. -/

/-- How the `try:` body of an endpoint ended. -/
inductive Outcome (α : Type) where
  | ok (a : α)
  | httpExc (status : Nat) (detail : String)
  | exc (msg : String)
deriving DecidableEq, Repr

/-- The HTTP response: normal body or error status + detail. -/
inductive HttpResult (α : Type) where
  | ok (a : α)
  | err (status : Nat) (detail : String)
deriving DecidableEq, Repr

/-- `str(HTTPException(status, detail))` as interpolated by an f-string. -/
def httpExcStr (status : Nat) (detail : String) : String :=
  toString status ++ ": " ++ detail

/-! ### Python string primitives

Modelled structurally over `List Char` so that concrete instances compute
by kernel reduction.  `str.lower` is modelled on the ASCII range, which
covers every string the code compares case-insensitively. -/

/-- `str.lower` on one ASCII character. -/
def asciiLower (c : Char) : Char :=
  if 65 ≤ c.toNat ∧ c.toNat ≤ 90 then Char.ofNat (c.toNat + 32) else c

/-- Python `s.lower()` (ASCII model). -/
def strLower (s : String) : String :=
  ⟨s.data.map asciiLower⟩

/-- Python `s.endswith(suffix)`. -/
def strEndsWith (s suffix : String) : Bool :=
  suffix.data.reverse.isPrefixOf s.data.reverse

/-- Non-overlapping occurrence count, resuming after each match — the
semantics of `re.findall` on a literal pattern.  `skip` counts characters
still inside the previous match. -/
def countOccsAux (needle : List Char) : Nat → List Char → Nat
  | _, [] => 0
  | k + 1, _ :: rest => countOccsAux needle k rest
  | 0, c :: rest =>
    if needle.isPrefixOf (c :: rest) then
      1 + countOccsAux needle (needle.length - 1) rest
    else
      countOccsAux needle 0 rest

/-- Occurrence count of `needle` in `hay`, non-overlapping. -/
def countOccs (needle hay : List Char) : Nat :=
  countOccsAux needle 0 hay

/-- Python `pat in hay` on strings: substring containment. -/
def containsSub (needle : List Char) : List Char → Bool
  | [] => needle.isEmpty
  | c :: rest => needle.isPrefixOf (c :: rest) || containsSub needle rest

/-- Python `needle in hay` on `String`. -/
def strContains (hay needle : String) : Bool :=
  containsSub needle.data hay.data

/-- Python `s.replace(pat, rep)` scanning left to right, non-overlapping;
`skip` counts characters still inside the previous match. -/
def replaceAllAux (pat rep : List Char) : Nat → List Char → List Char
  | _, [] => []
  | k + 1, _ :: rest => replaceAllAux pat rep k rest
  | 0, c :: rest =>
    if pat.isPrefixOf (c :: rest) then
      rep ++ replaceAllAux pat rep (pat.length - 1) rest
    else
      c :: replaceAllAux pat rep 0 rest

/-- Python `s.replace(pat, rep)` on `String`. -/
def strReplace (s pat rep : String) : String :=
  ⟨replaceAllAux pat.data rep.data 0 s.data⟩

/-- `not file.filename or not file.filename.endswith(".pdf")` negated:
the case-SENSITIVE validation used by `/highlight-pdf` (src/main.py:65)
and `/analyze-pdf` (src/src/main.py:193).  `none` models a missing
filename; `""` is falsy in Python. -/
def validPdfNameCS (filename : Option String) : Bool :=
  match filename with
  | none => false
  | some s => !(s == "") && strEndsWith s ".pdf"

/-- `not file.filename or not file.filename.lower().endswith(".pdf")`
negated: the case-INSENSITIVE validation used by `/gemini/document-analyze`
(src/src/main.py:107), `/gemini/pipe-shaft-detect` (line 389) and
`/detect-target-image` (line 547). -/
def validPdfNameCI (filename : Option String) : Bool :=
  match filename with
  | none => false
  | some s => !(s == "") && strEndsWith (strLower s) ".pdf"

/-- Module-level state of `src/src/main.py` set at startup (lines 39-57). -/
structure AppState where
  gemini_api_key : Option String
  gemini_analyzer_present : Bool
  gemini_available : Bool
deriving DecidableEq, Repr

/-- `/highlight-pdf` (src/main.py:60-114).  The filename check (line 65)
precedes `await file.read()` (line 69); the body runs under a bare
`except Exception` (line 113) that wraps every exception — `HTTPException`
included, since none is raised inside the `try` — into a 500. -/
def highlight_pdf_with_ai_analysis {α : Type} (filename : Option String)
    (body : Outcome α) : HttpResult α :=
  if !validPdfNameCS filename then
    .err 400 "Only PDF files are allowed"
  else
    match body with
    | .ok a => .ok a
    | .httpExc s d => .err 500 ("Error processing PDF: " ++ httpExcStr s d)
    | .exc m => .err 500 ("Error processing PDF: " ++ m)

/-- `/gemini/document-analyze` (src/src/main.py:81-145): 503 guard
(line 101), filename check (line 107), `except HTTPException: raise`
(line 141), `except Exception` → 500 (line 143).  The pair returned keeps
the module state, which the handler never assigns. -/
def gemini_document_analyze {α : Type} (st : AppState)
    (filename : Option String) (body : Outcome α) : AppState × HttpResult α :=
  (st,
    if !st.gemini_available then
      .err 503 "Gemini analysis service is not available. Please set GEMINI_API_KEY."
    else if !validPdfNameCI filename then
      .err 400 "Only PDF files are allowed"
    else
      match body with
      | .ok a => .ok a
      | .httpExc s d => .err s d
      | .exc m => .err 500 ("Error analyzing PDF with Gemini: " ++ m))

/-- The `target_overview` value of `/analyze-pdf`: the dict returned by
`describe_target_image`, or the error dict built at lines 244-246. -/
structure TargetOverview where
  description? : Option String
  error? : Option String
deriving DecidableEq, Repr

/-- The successful `/analyze-pdf` response, keeping the field the inner
error handling feeds (`target_image_overview`, line 356); the rest of the
payload is the abstract `body`. -/
structure AnalyzeResponse (α : Type) where
  body : α
  target_image_overview : TargetOverview
deriving DecidableEq, Repr

/-- `/analyze-pdf` (src/src/main.py:148-363): 503 guard (line 186),
case-sensitive filename check (line 193); the inner
`try: target_overview = await model_analyzer.describe_target_image(...)`
(lines 237-246) swallows any exception of the describe step, records an
error dict and continues; and a single outer `except Exception`
(line 360) → 500, which also swallows the `HTTPException` raised at
line 231 (model init failure) and re-wraps it through `str(e)`.
`tdesc` is how the describe step ended, `body` how the rest of the
processing ended. -/
def analyze_pdf {α : Type} (st : AppState) (filename : Option String)
    (tdesc : Except String TargetOverview) (body : Outcome α) :
    AppState × HttpResult (AnalyzeResponse α) :=
  (st,
    if !st.gemini_available then
      .err 503 "Gemini analysis service is not available. Please set GEMINI_API_KEY in your .env file. Get your API key from: https://makersuite.google.com/app/apikey"
    else if !validPdfNameCS filename then
      .err 400 "Only PDF files are allowed"
    else
      let target_overview :=
        match tdesc with
        | .ok ov => ov
        | .error m =>
          { description? := none
            error? := some ("ターゲット画像の説明に失敗: " ++ m) }
      match body with
      | .ok a => .ok { body := a, target_image_overview := target_overview }
      | .httpExc s d => .err 500 ("Error processing PDF: " ++ httpExcStr s d)
      | .exc m => .err 500 ("Error processing PDF: " ++ m))

/-- `/gemini/pipe-shaft-detect` (src/src/main.py:366-426): 503 guard
(line 383), case-insensitive filename check (line 389),
`except HTTPException: raise` (line 422), `except Exception` → 500
(line 424). -/
def gemini_pipe_shaft_detect {α : Type} (st : AppState)
    (filename : Option String) (body : Outcome α) : AppState × HttpResult α :=
  (st,
    if !st.gemini_available then
      .err 503 "Gemini analysis service is not available. Please set GEMINI_API_KEY."
    else if !validPdfNameCI filename then
      .err 400 "Only PDF files are allowed"
    else
      match body with
      | .ok a => .ok a
      | .httpExc s d => .err s d
      | .exc m => .err 500 ("Error analyzing PDF with Gemini: " ++ m))

/-- `/detect-target-image` (src/src/main.py:523-597): same structure as
`/gemini/pipe-shaft-detect`. -/
def detect_target_image {α : Type} (st : AppState)
    (filename : Option String) (body : Outcome α) : AppState × HttpResult α :=
  (st,
    if !st.gemini_available then
      .err 503 "Gemini analysis service is not available. Please set GEMINI_API_KEY."
    else if !validPdfNameCI filename then
      .err 400 "Only PDF files are allowed"
    else
      match body with
      | .ok a => .ok a
      | .httpExc s d => .err s d
      | .exc m => .err 500 ("Error analyzing PDF with Gemini: " ++ m))

/-! ## GET `/` of src/src/main.py (C8) -/

/-- Values a module global can hold, as far as `hello_world` reads them. -/
inductive PyVal where
  | bool (b : Bool)
  | str (s : String)
  | noneVal
  | obj
deriving DecidableEq, Repr

/-- Names bound at module level in `src/src/main.py`: the imports
(lines 1-11) and the top-level assignments (lines 13, 28, 30, 31,
39-41, 45, plus the decorated endpoint functions).  `grok_available`
is NOT among them: no statement in the module assigns it. -/
def moduleGlobalNames : List String :=
  ["FastAPI", "File", "UploadFile", "HTTPException", "Query",
   "CORSMiddleware", "convert_from_bytes", "Image", "ImageDraw",
   "uvicorn", "io", "base64", "os", "time", "logging",
   "GeminiImageAnalyzer", "app", "logger", "handler", "formatter",
   "gemini_api_key", "gemini_analyzer", "gemini_available",
   "hello_world", "gemini_document_analyze", "analyze_pdf",
   "gemini_pipe_shaft_detect", "detect_target_image",
   "_create_image_previews", "_create_highlighted_images",
   "_create_target_highlighted_images"]

/-- Name resolution against the module globals; an unbound name is a
`NameError` at the point of the read. -/
def readName (st : AppState) (name : String) : Except String PyVal :=
  if name = "gemini_available" then .ok (.bool st.gemini_available)
  else if name = "gemini_api_key" then
    .ok (match st.gemini_api_key with | some s => .str s | none => .noneVal)
  else if name = "gemini_analyzer" then
    .ok (if st.gemini_analyzer_present then .obj else .noneVal)
  else if moduleGlobalNames.contains name then .ok .obj
  else .error ("NameError: name '" ++ name ++ "' is not defined")

/-- Python truthiness of a `PyVal`. -/
def PyVal.truthy : PyVal → Bool
  | .bool b => b
  | .str s => !(s == "")
  | .noneVal => false
  | .obj => true

/-- GET `/` (src/src/main.py:59-78).  The response dict literal evaluates
its values in order: line 64 reads `gemini_available`, line 65 reads
`grok_available`.  The embedding performs those reads in that order and
builds the dict from the values read. -/
def hello_world (st : AppState) :
    AppState × Except String (List (String × PyVal)) :=
  (st, do
    let gav ← readName st "gemini_available"
    let grok ← readName st "grok_available"
    let gavB := gav.truthy
    let grokB := grok.truthy
    .ok [("message", .str "図面PDF解析API is running"),
         ("description",
          .str "図面PDFを分析し、PF100/PF150の文言とポイント数をカウントする特化型API"),
         ("gemini_available", gav),
         ("grok_available", grok),
         ("status", .str (if gavB || grokB then "✅ Ready" else "⚠️ API Key required")),
         ("features", .obj)])

/-! ## BBox helpers (src/src/infrastructure/gemini.py:101-158, C10) -/

/-- `clip_and_pack` (gemini.py:114-122), after `int(round(...))`: reject
non-positive sizes, clamp the corner into the image, clamp the size to
what remains.  Takes the already-rounded integers. -/
def clip_and_pack (img_w img_h x y w h : ℤ) : Option (ℤ × ℤ × ℤ × ℤ) :=
  if w ≤ 0 ∨ h ≤ 0 then none
  else
    let x' := max 0 (min x (img_w - 1))
    let y' := max 0 (min y (img_h - 1))
    let w' := max 1 (min w (img_w - x'))
    let h' := max 1 (min h (img_h - y'))
    some (x', y', w', h')

/-- The bbox shapes `_to_pixel_bbox` accepts (gemini.py:124-156): a dict
with `box_2d` (first four entries `[ymin,xmin,ymax,xmax]`), a dict with
`x/y/w/h`, a dict with `x1/y1/x2/y2`, a list/tuple of at least four
numbers (first four used), or anything else (falsy input, dict with other
keys, short list). -/
inductive RawBBox where
  | dictBox2d (ymin xmin ymax xmax : ℚ)
  | dictXYWH (x y w h : ℚ)
  | dictXYXY (x1 y1 x2 y2 : ℚ)
  | listVals (a b c d : ℚ)
  | unrecognized
deriving DecidableEq, Repr

/-- `_to_pixel_bbox` (gemini.py:102-158): scale the `[0,1000]`-normalized
input by `img_w/1000`, `img_h/1000`, round each component, and clip.  The
list branch uses the heuristic at line 153: `[x1,y1,x2,y2]` when
`c > a` and `d > b` after scaling, else `[x,y,w,h]`. -/
def to_pixel_bbox (raw : RawBBox) (img_w img_h : ℤ) : Option (ℤ × ℤ × ℤ × ℤ) :=
  match raw with
  | .dictBox2d ymin xmin ymax xmax =>
    let sx : ℚ := (img_w : ℚ) / 1000
    let sy : ℚ := (img_h : ℚ) / 1000
    let x1 := xmin * sx
    let y1 := ymin * sy
    let x2 := xmax * sx
    let y2 := ymax * sy
    clip_and_pack img_w img_h (pyRound x1) (pyRound y1)
      (pyRound (x2 - x1)) (pyRound (y2 - y1))
  | .dictXYWH x y w h =>
    clip_and_pack img_w img_h (pyRound (x * img_w / 1000))
      (pyRound (y * img_h / 1000)) (pyRound (w * img_w / 1000))
      (pyRound (h * img_h / 1000))
  | .dictXYXY x1 y1 x2 y2 =>
    let px1 := x1 * img_w / 1000
    let py1 := y1 * img_h / 1000
    let px2 := x2 * img_w / 1000
    let py2 := y2 * img_h / 1000
    clip_and_pack img_w img_h (pyRound px1) (pyRound py1)
      (pyRound (px2 - px1)) (pyRound (py2 - py1))
  | .listVals a b c d =>
    let a' := a * img_w / 1000
    let b' := b * img_h / 1000
    let c' := c * img_w / 1000
    let d' := d * img_h / 1000
    if a' < c' ∧ b' < d' then
      clip_and_pack img_w img_h (pyRound a') (pyRound b')
        (pyRound (c' - a')) (pyRound (d' - b'))
    else
      clip_and_pack img_w img_h (pyRound a') (pyRound b')
        (pyRound c') (pyRound d')
  | .unrecognized => none

/-! ## Regex fallback (gemini.py:877-947, C4) -/

/-- Case-insensitive literal occurrence count, the effect of
`re.IGNORECASE` on the ASCII keywords the code uses. -/
def countInsensitive (needle hay : String) : Nat :=
  countOccs (strLower needle).data (strLower hay).data

/-- `re.search(r"PF(\d+)", text, re.IGNORECASE)` (gemini.py:901): the
digit group of the leftmost case-insensitive `PF<digits>` occurrence. -/
def pfSearch : List Char → Option (List Char)
  | [] => none
  | [_] => none
  | p :: f :: rest =>
    if (p == 'P' || p == 'p') && (f == 'F' || f == 'f') &&
        (match rest with | d :: _ => d.isDigit | [] => false) then
      some (rest.takeWhile Char.isDigit)
    else
      pfSearch (f :: rest)

/-- The per-keyword count of `_enhanced_fallback_analysis`
(gemini.py:892-908): the literal pattern is
`re.escape(text.replace("φ", "[φΦ]"))` matched case-insensitively; when
that finds nothing and the keyword itself contains `PF<digits>`, the count
of `PF<digits>` is used instead. -/
def fbCount (text response_text : String) : Nat :=
  let primary := countInsensitive (strReplace text "φ" "[φΦ]") response_text
  if primary = 0 then
    match pfSearch text.data with
    | some digits => countInsensitive ("PF" ++ String.mk digits) response_text
    | none => 0
  else primary

/-- `f"{text.lower().replace('φ', 'phi').replace('Φ', 'phi')}_count"`
(gemini.py:911-913). -/
def keywordKey (text : String) : String :=
  strReplace (strReplace (strLower text) "φ" "phi") "Φ" "phi" ++ "_count"

/-- One synthesized fallback detection dict (gemini.py:933-940). -/
structure FbDetection where
  text : String
  bbox : ℤ × ℤ × ℤ × ℤ
  confidence : ℚ
  fallback : Bool
deriving DecidableEq, Repr

/-- The guessed grid bbox for occurrence `i` of `count` occurrences
(gemini.py:918-936): `int(count ** 0.5)` is the integer square root for
the exactly-representable counts in play. -/
def fbBBox (width height count i : ℕ) : ℤ × ℤ × ℤ × ℤ :=
  let cols := max 1 (Nat.sqrt count)
  let rows := max 1 ((count + cols - 1) / cols)
  let col := i % cols
  let row := i / cols
  let x := pyInt ((width : ℚ) * ((col : ℚ) + 1/2) / (cols : ℚ) - 50)
  let y := pyInt ((height : ℚ) * ((row : ℚ) + 1/2) / (rows : ℚ) - 15)
  let x' := max 0 (min x ((width : ℤ) - 100))
  let y' := max 0 (min y ((height : ℤ) - 30))
  (x', y', 100, 30)

/-- The detections synthesized for one keyword: one per counted
occurrence, `confidence=0.3`, `fallback=True` (gemini.py:918-940). -/
def fbDetsFor (text response_text : String) (width height : ℕ) :
    List FbDetection :=
  (List.range (fbCount text response_text)).map fun i =>
    { text := text
      bbox := fbBBox width height (fbCount text response_text) i
      confidence := 3/10
      fallback := true }

/-- The dict `_enhanced_fallback_analysis` returns (gemini.py:942-947). -/
structure FallbackResult where
  detections : List FbDetection
  keywordCounts : List (String × Nat)
  total_detections : Nat
  fallback : Bool
  note : String
deriving DecidableEq, Repr

/-- Loop body over `target_texts` (gemini.py:892-940), accumulating the
detections list, the per-keyword summary entries, and
`summary["total_detections"]`. -/
def fbStep (response_text : String) (width height : ℕ)
    (acc : List FbDetection × List (String × Nat) × Nat) (text : String) :
    List FbDetection × List (String × Nat) × Nat :=
  let count := fbCount text response_text
  (acc.1 ++ fbDetsFor text response_text width height,
   acc.2.1 ++ [(keywordKey text, count)],
   acc.2.2 + count)

/-- `_enhanced_fallback_analysis` (gemini.py:877-947). -/
def enhanced_fallback_analysis (response_text : String)
    (target_texts : List String) (width height : ℕ) : FallbackResult :=
  let r := target_texts.foldl (fbStep response_text width height) ([], [], 0)
  { detections := r.1
    keywordCounts := r.2.1
    total_detections := r.2.2
    fallback := true
    note := "推測ベースの検出結果" }

/-! ## Structured detection results (gemini.py, C4 and C9) -/

/-- One detection object of the structured-output schema
(gemini.py:713-735); only `confidence` is required. -/
structure GeminiDet where
  confidence : ℚ
deriving DecidableEq, Repr

/-- A detection-result dict as produced by `_extract_structured` and
massaged by the analysis methods: every key the code reads, each
optional because JSON may omit it. -/
structure DetData where
  error? : Option String
  detections? : Option (List GeminiDet)
  total? : Option ℤ
  coordinate_space? : Option String
deriving DecidableEq, Repr

/-- `analyze_symbol_with_coordinates` after the model responded
(gemini.py:600-646), as a function of the parse result
(`_extract_structured`, `None` on JSON-parse failure): on failure it
returns the error dict of lines 608-619 — empty `detections`,
`total_detections = 0`, NO text fallback; on success it stamps
`coordinate_space` (line 622) and returns the parsed data. -/
def analyze_symbol_with_coordinates_result (parsed : Option DetData) : DetData :=
  match parsed with
  | none =>
    { error? := some "JSON解析エラー"
      detections? := some []
      total? := some 0
      coordinate_space? := none }
  | some d => { d with coordinate_space? := some "normalized_1000" }

/-- `_retry_with_flexible_prompt` outcome (gemini.py:865-875). -/
inductive RetryOutcome where
  | structured (d : DetData)
  | fallbackGuess (fb : FallbackResult)
deriving DecidableEq, Repr

/-- `_retry_with_flexible_prompt` after the model responded
(gemini.py:865-870): return the structured data when it parsed, else
run `_enhanced_fallback_analysis` on the raw response text. -/
def retry_with_flexible_prompt (parsed : Option DetData)
    (response_text : String) (target_texts : List String)
    (width height : ℕ) : RetryOutcome :=
  match parsed with
  | some d => .structured d
  | none =>
    .fallbackGuess (enhanced_fallback_analysis response_text target_texts width height)

/-- `analyze_image_with_coordinates` after the model responded
(gemini.py:763-790), as a function of the parse result and of the value
the retry helper would produce.  The condition at lines 767-771 sends
empty/failed parses to the retry branch, which returns at line 778; the
success-path code at lines 780-790 sits after that `return` inside the
same `if` block and is unreachable, so when the condition is false the
`try` suite ends and the function implicitly returns `None`. -/
def analyze_image_with_coordinates (parsed : Option DetData)
    (retryResult : DetData) : Option DetData :=
  match parsed with
  | none => some retryResult
  | some d =>
    if (d.detections?.getD []).isEmpty || d.total?.getD 0 == 0 then
      some retryResult
    else
      none

/-! ## Compositor `_create_highlighted_images` (src/src/main.py:446-520,
C3 and C6) -/

/-- A detection's `position` sub-dict; `x`/`y` may be missing. -/
structure Pos where
  x? : Option ℚ
  y? : Option ℚ
deriving DecidableEq, Repr

/-- One detection dict as read by the compositor: `target`, `type`,
`position`. -/
structure Det3 where
  target? : Option String
  type? : Option String
  position? : Option Pos
deriving DecidableEq, Repr

/-- One element of `detection_data["pages"]`. -/
structure PageEntry where
  page : ℤ
  detections : List Det3
deriving DecidableEq, Repr

/-- The dict comprehension
`{page["page"]: page["detections"] for page in detection_data["pages"]}`
(line 456) followed by `.get(page_num, [])` (line 471): a later entry
with the same page number overwrites an earlier one. -/
def pagesData (pages : List PageEntry) (p : ℤ) : List Det3 :=
  match pages.reverse.find? (fun e => e.page == p) with
  | some e => e.detections
  | none => []

/-- `detection.get("target", "") or detection.get("type", "")`
(line 476): the `target` string when truthy, else the `type` string. -/
def targetTypeOf (d : Det3) : String :=
  let t := d.target?.getD ""
  if t == "" then d.type?.getD "" else t

/-- The highlight drawn for one detection: two ellipses at a common
center (lines 497-506), summarised by center, colors and outer radius. -/
structure Mark where
  cx : ℤ
  cy : ℤ
  color : String
  outline : String
  radius : ℕ
deriving DecidableEq, Repr

/-- Lines 474-506 for a single detection on an `img_width × img_height`
page image: skip unless the target/type mentions PF100 or PF150
(lines 479-480); skip when `position`/`x`/`y` is missing (line 482);
otherwise scale the `[0,1000]` position by `img_width/1000`,
`img_height/1000` and truncate (lines 484-485), pick the colors
(lines 488-493) and the radius `max(30, min(w, h) // 35)` (line 496). -/
def drawMarkFor (img_width img_height : ℕ) (d : Det3) : Option Mark :=
  let t := targetTypeOf d
  let isPF100 := strContains t "PF100"
  let isPF150 := strContains t "PF150"
  if !isPF100 && !isPF150 then none
  else
    match d.position? with
    | none => none
    | some pos =>
      match pos.x?, pos.y? with
      | some px, some py =>
        some
          { cx := pyInt (px * img_width / 1000)
            cy := pyInt (py * img_height / 1000)
            color := if isPF100 then "red" else "blue"
            outline := if isPF100 then "darkred" else "darkblue"
            radius := max 30 (min img_width img_height / 35) }
      | _, _ => none

/-- The `image_data` string: the page image (its size stands for the
pixel content) with the drawn marks, PNG-encoded then base64-encoded
(lines 508-512). -/
inductive ImageData where
  | pngBase64 (width height : ℕ) (marks : List Mark)
deriving DecidableEq, Repr

/-- One element of the list `_create_highlighted_images` returns
(lines 514-518). -/
structure HLPage where
  page : ℕ
  image_data : ImageData
  detections : List Det3
deriving DecidableEq, Repr

/-- `_create_highlighted_images` (src/src/main.py:446-520): one output
dict per input page image, `page = i + 1`, marks drawn per detection as
in `drawMarkFor`, and the page's detection list passed through. -/
def create_highlighted_images (images : List (ℕ × ℕ))
    (pages : List PageEntry) : List HLPage :=
  images.enum.map fun iw =>
    let page_num : ℕ := iw.1 + 1
    let dets := pagesData pages (page_num : ℤ)
    { page := page_num
      image_data :=
        .pngBase64 iw.2.1 iw.2.2 (dets.filterMap (drawMarkFor iw.2.1 iw.2.2))
      detections := dets }

/-! ## `simulate_ai_analysis` (src/main.py:30-52, C5) -/

/-- The `Coordinate` dataclass (src/main.py:23-27); `page` is a 0-based
page index. -/
structure Coordinate where
  x : ℚ
  y : ℚ
  page : ℕ
deriving DecidableEq, Repr

/-- `simulate_ai_analysis` (src/main.py:30-52).  The random generator is
an oracle: `nrand p` is the value `random.randint(1, 5)` produced for
page `p` (line 42), and `ux lo hi p j` / `uy lo hi p j` are the values
`random.uniform(lo, hi)` produced for highlight `j` of page `p`
(lines 47-48), with `lo = margin = 50`, `hi = width - margin` resp.
`height - margin`.  `pages` lists each page's `rect.width, rect.height`. -/
def simulate_ai_analysis (pages : List (ℚ × ℚ)) (nrand : ℕ → ℕ)
    (ux uy : ℚ → ℚ → ℕ → ℕ → ℚ) : List Coordinate :=
  pages.enum.flatMap fun pwh =>
    (List.range (nrand pwh.1)).map fun j =>
      { x := ux 50 (pwh.2.1 - 50) pwh.1 j
        y := uy 50 (pwh.2.2 - 50) pwh.1 j
        page := pwh.1 }

/-- Is a detection one the compositor draws? — target/type mentions PF100
or PF150 (lines 476-480) and `position.x`, `position.y` are present
(line 482). -/
def hasXY (d : Det3) : Bool :=
  match d.position? with
  | some p => p.x?.isSome && p.y?.isSome
  | none => false

/-- The drawn-detection predicate of `_create_highlighted_images`. -/
def pfEligible (d : Det3) : Bool :=
  (strContains (targetTypeOf d) "PF100" || strContains (targetTypeOf d) "PF150") &&
    hasXY d

/-! # Theorems -/

/-! ## C7 — endpoints leave the module state unchanged -/

/-- C7: every request handler of `src/src/main.py`, on every input and
every outcome, returns the module-level state (`gemini_api_key`,
`gemini_analyzer`, `gemini_available`) unchanged: no endpoint assigns the
startup globals, so no observable state persists or changes across
requests. -/
theorem c7_endpoints_preserve_module_state (st : AppState)
    (f : Option String) (b : Outcome Unit)
    (tdesc : Except String TargetOverview) :
    (hello_world st).1 = st ∧
    (gemini_document_analyze st f b).1 = st ∧
    (analyze_pdf st f tdesc b).1 = st ∧
    (gemini_pipe_shaft_detect st f b).1 = st ∧
    (detect_target_image st f b).1 = st :=
  ⟨rfl, rfl, rfl, rfl, rfl⟩

/-! ## C8 — the root endpoint reads an undefined name -/

/-- C8: on every call, GET `/` of `src/src/main.py` raises a `NameError`
instead of returning its status JSON: the response dict (line 65) reads
`grok_available`, which no statement of the module defines
(`moduleGlobalNames` lists every module-level binding). -/
theorem c8_root_endpoint_raises_nameError (st : AppState) :
    (hello_world st).2 =
      .error "NameError: name 'grok_available' is not defined" :=
  rfl

/-! ## C9 — the success path of `analyze_image_with_coordinates` is dead -/

/-- C9: whenever the structured response of
`analyze_image_with_coordinates` parses into data with a non-empty
`detections` list and a nonzero `summary.total_detections`, the function
returns `None`: the retry branch (gemini.py:767-778) is skipped, the
success-path code at lines 780-790 is unreachable behind the `return`
at line 778, and the function body ends without returning a value. -/
theorem c9_success_path_returns_none (d : DetData) (retryResult : DetData)
    (l : List GeminiDet) (hdet : d.detections? = some l) (hne : l ≠ [])
    (htot : d.total?.getD 0 ≠ 0) :
    analyze_image_with_coordinates (some d) retryResult = none := by
  simp only [analyze_image_with_coordinates, hdet, Option.getD_some]
  rw [if_neg]
  simp only [Bool.or_eq_true, List.isEmpty_iff, beq_iff_eq]
  push_neg
  exact ⟨hne, htot⟩

/-- Concrete instance of `c9_success_path_returns_none`: one detection,
`total_detections = 3`. -/
theorem c9_witness :
    analyze_image_with_coordinates
      (some { error? := none, detections? := some [{ confidence := 1 }],
              total? := some 3, coordinate_space? := none })
      { error? := none, detections? := none, total? := none,
        coordinate_space? := none } = none :=
  c9_success_path_returns_none _ _ [{ confidence := 1 }] rfl
    (by simp) (by simp)

/-! ## C2 — error handling of the analysis endpoints -/

/-- C2 counterexample: an exception raised during processing does not
always produce a 500.  In `/analyze-pdf`, when `describe_target_image`
raises an exception with message `"boom"` (gemini unavailable on the
network, say), the inner `except` at src/src/main.py:242-246 swallows it:
the endpoint recovers, stores an error dict under
`target_image_overview`, and returns a 200 response — not a 500 embedding
the message. -/
theorem c2_counterexample :
    (analyze_pdf (α := Unit)
        { gemini_api_key := some "k", gemini_analyzer_present := true,
          gemini_available := true }
        (some "plan.pdf") (.error "boom") (.ok ())).2 =
      .ok { body := (),
            target_image_overview :=
              { description? := none
                error? := some "ターゲット画像の説明に失敗: boom" } } := by
  rfl

/-- C2, amended: when the Gemini client is unavailable each analysis
endpoint of `src/src/main.py` fails with 503; an exception that reaches
an endpoint's outer `try` produces a 500 whose detail embeds the
exception message (`/highlight-pdf` included); the one extra recovery is
`/analyze-pdf`'s inline handling of `describe_target_image` failures,
which records an error dict and continues. -/
theorem c2_error_handling :
    (∀ (st : AppState) (f : Option String) (b : Outcome Unit)
        (tdesc : Except String TargetOverview),
      st.gemini_available = false →
        (gemini_document_analyze st f b).2 =
          .err 503 "Gemini analysis service is not available. Please set GEMINI_API_KEY." ∧
        (gemini_pipe_shaft_detect st f b).2 =
          .err 503 "Gemini analysis service is not available. Please set GEMINI_API_KEY." ∧
        (detect_target_image st f b).2 =
          .err 503 "Gemini analysis service is not available. Please set GEMINI_API_KEY." ∧
        (analyze_pdf st f tdesc b).2 =
          .err 503 "Gemini analysis service is not available. Please set GEMINI_API_KEY in your .env file. Get your API key from: https://makersuite.google.com/app/apikey") ∧
    (∀ (st : AppState) (f : Option String) (m : String)
        (tdesc : Except String TargetOverview),
      st.gemini_available = true →
        (validPdfNameCI f = true →
          (gemini_document_analyze st f (Outcome.exc (α := Unit) m)).2 =
            .err 500 ("Error analyzing PDF with Gemini: " ++ m) ∧
          (gemini_pipe_shaft_detect st f (Outcome.exc (α := Unit) m)).2 =
            .err 500 ("Error analyzing PDF with Gemini: " ++ m) ∧
          (detect_target_image st f (Outcome.exc (α := Unit) m)).2 =
            .err 500 ("Error analyzing PDF with Gemini: " ++ m)) ∧
        (validPdfNameCS f = true →
          (analyze_pdf st f tdesc (Outcome.exc (α := Unit) m)).2 =
            .err 500 ("Error processing PDF: " ++ m) ∧
          (analyze_pdf (α := Unit) st f (.error m) (.ok ())).2 =
            .ok { body := (),
                  target_image_overview :=
                    { description? := none
                      error? := some ("ターゲット画像の説明に失敗: " ++ m) } })) ∧
    (∀ (f : Option String) (m : String),
      validPdfNameCS f = true →
        highlight_pdf_with_ai_analysis (α := Unit) f (.exc m) =
          .err 500 ("Error processing PDF: " ++ m)) := by
  refine ⟨?_, ?_, ?_⟩
  · intro st f b tdesc hav
    simp [gemini_document_analyze, gemini_pipe_shaft_detect,
      detect_target_image, analyze_pdf, hav]
  · intro st f m tdesc hav
    refine ⟨fun hv => ?_, fun hv => ?_⟩
    · simp [gemini_document_analyze, gemini_pipe_shaft_detect,
        detect_target_image, hav, hv]
    · simp [analyze_pdf, hav, hv]
  · intro f m hv
    simp [highlight_pdf_with_ai_analysis, hv]

/-- Concrete instance of `c2_error_handling`: unavailability on
`/gemini/document-analyze`, a raised exception on `/analyze-pdf`, and a
raised exception on `/highlight-pdf`. -/
theorem c2_witness :
    (gemini_document_analyze (α := Unit)
        { gemini_api_key := none, gemini_analyzer_present := false,
          gemini_available := false } (some "a.pdf") (.ok ())).2 =
      .err 503 "Gemini analysis service is not available. Please set GEMINI_API_KEY." ∧
    (analyze_pdf (α := Unit)
        { gemini_api_key := some "k", gemini_analyzer_present := true,
          gemini_available := true } (some "a.pdf")
        (.ok { description? := some "d", error? := none })
        (.exc "stream closed")).2 =
      .err 500 ("Error processing PDF: " ++ "stream closed") ∧
    highlight_pdf_with_ai_analysis (α := Unit) (some "a.pdf")
        (.exc "bad xref") =
      .err 500 ("Error processing PDF: " ++ "bad xref") :=
  ⟨(c2_error_handling.1
      { gemini_api_key := none, gemini_analyzer_present := false,
        gemini_available := false } (some "a.pdf") (.ok ())
      (.ok { description? := none, error? := none }) rfl).1,
   ((c2_error_handling.2.1
      { gemini_api_key := some "k", gemini_analyzer_present := true,
        gemini_available := true } (some "a.pdf") "stream closed"
      (.ok { description? := some "d", error? := none }) rfl).2
      (by decide)).1,
   c2_error_handling.2.2 (some "a.pdf") "bad xref" (by decide)⟩

/-! ## C1 — PDF filename validation -/

/-- C1 counterexample: the claim predicts that a filename ending in
`.PDF` (which does not end with `.pdf`) is rejected with 400 by every
upload endpoint, but `/gemini/document-analyze` lowercases the name
first and accepts it: with `gemini_available` the upload
`drawing.PDF` passes validation and the body runs. -/
theorem c1_counterexample :
    strEndsWith "drawing.PDF" ".pdf" = false ∧
    validPdfNameCI (some "drawing.PDF") = true ∧
    (gemini_document_analyze (α := Unit)
        { gemini_api_key := some "k", gemini_analyzer_present := true,
          gemini_available := true }
        (some "drawing.PDF") (.ok ())).2 = .ok () := by
  refine ⟨by decide, by decide, ?_⟩
  rfl

/-- C1, amended: `/highlight-pdf` and `/analyze-pdf` validate the
extension case-sensitively — absent/empty filenames or ones not ending
in `.pdf` exactly are rejected with 400 "Only PDF files are allowed",
independent of the request body — while `/gemini/document-analyze`,
`/gemini/pipe-shaft-detect` and `/detect-target-image` lowercase the
filename first, so an extension differing only in case (`.PDF`) passes
there; in either group a valid filename leaves the response to the body
(the 400 never fires), and the rejection is decided before the file's
bytes are read (the 400 result holds for every body outcome).  For the
`src/src/main.py` endpoints the 503 availability guard precedes
validation, so the 400 behaviour is stated under `gemini_available`. -/
theorem c1_filename_validation (st : AppState) (f : Option String)
    (b : Outcome Unit) (tdesc : Except String TargetOverview)
    (hav : st.gemini_available = true) :
    (validPdfNameCS f = false →
      highlight_pdf_with_ai_analysis f b = .err 400 "Only PDF files are allowed" ∧
      (analyze_pdf st f tdesc b).2 = .err 400 "Only PDF files are allowed") ∧
    (validPdfNameCS f = true →
      highlight_pdf_with_ai_analysis f b =
        highlight_pdf_with_ai_analysis (some "x.pdf") b ∧
      (analyze_pdf st f tdesc b).2 = (analyze_pdf st (some "x.pdf") tdesc b).2) ∧
    (validPdfNameCI f = false →
      (gemini_document_analyze st f b).2 = .err 400 "Only PDF files are allowed" ∧
      (gemini_pipe_shaft_detect st f b).2 = .err 400 "Only PDF files are allowed" ∧
      (detect_target_image st f b).2 = .err 400 "Only PDF files are allowed") ∧
    (validPdfNameCI f = true →
      (gemini_document_analyze st f b).2 =
        (gemini_document_analyze st (some "x.pdf") b).2 ∧
      (gemini_pipe_shaft_detect st f b).2 =
        (gemini_pipe_shaft_detect st (some "x.pdf") b).2 ∧
      (detect_target_image st f b).2 =
        (detect_target_image st (some "x.pdf") b).2) := by
  have hxs : validPdfNameCS (some "x.pdf") = true := by decide
  have hxi : validPdfNameCI (some "x.pdf") = true := by decide
  refine ⟨fun hv => ?_, fun hv => ?_, fun hv => ?_, fun hv => ?_⟩
  · simp [highlight_pdf_with_ai_analysis, analyze_pdf, hav, hv]
  · simp [highlight_pdf_with_ai_analysis, analyze_pdf, hav, hv, hxs]
  · simp [gemini_document_analyze, gemini_pipe_shaft_detect,
      detect_target_image, hav, hv]
  · simp [gemini_document_analyze, gemini_pipe_shaft_detect,
      detect_target_image, hav, hv, hxi]

/-- Concrete instance of `c1_filename_validation`: the missing-extension
name `"notes.txt"` is rejected by `/highlight-pdf` and accepted nowhere,
while `"scan.pdf"` passes `/analyze-pdf`. -/
theorem c1_witness :
    (highlight_pdf_with_ai_analysis (α := Unit) (some "notes.txt") (.ok ()) =
      .err 400 "Only PDF files are allowed") ∧
    (gemini_document_analyze (α := Unit)
        { gemini_api_key := some "k", gemini_analyzer_present := true,
          gemini_available := true } (some "notes.txt") (.ok ())).2 =
      .err 400 "Only PDF files are allowed" ∧
    (analyze_pdf (α := Unit)
        { gemini_api_key := some "k", gemini_analyzer_present := true,
          gemini_available := true } (some "scan.pdf")
        (.ok { description? := none, error? := none }) (.ok ())).2 =
      (analyze_pdf (α := Unit)
        { gemini_api_key := some "k", gemini_analyzer_present := true,
          gemini_available := true } (some "x.pdf")
        (.ok { description? := none, error? := none }) (.ok ())).2 :=
  ⟨((c1_filename_validation
      { gemini_api_key := some "k", gemini_analyzer_present := true,
        gemini_available := true } (some "notes.txt") (.ok ())
      (.ok { description? := none, error? := none }) rfl).1 (by decide)).1,
   ((c1_filename_validation
      { gemini_api_key := some "k", gemini_analyzer_present := true,
        gemini_available := true } (some "notes.txt") (.ok ())
      (.ok { description? := none, error? := none }) rfl).2.2.1 (by decide)).1,
   ((c1_filename_validation
      { gemini_api_key := some "k", gemini_analyzer_present := true,
        gemini_available := true } (some "scan.pdf") (.ok ())
      (.ok { description? := none, error? := none }) rfl).2.1 (by decide)).2⟩

/-! ## C4 — the regex fallback and where it actually applies -/

/-- Closed form of the `target_texts` loop of
`_enhanced_fallback_analysis`. -/
theorem fbFold_spec (txt : String) (w h : ℕ) (targets : List String)
    (acc : List FbDetection × List (String × Nat) × Nat) :
    targets.foldl (fbStep txt w h) acc =
      (acc.1 ++ targets.flatMap (fun t => fbDetsFor t txt w h),
       acc.2.1 ++ targets.map (fun t => (keywordKey t, fbCount t txt)),
       acc.2.2 + (targets.map (fun t => fbCount t txt)).sum) := by
  induction targets generalizing acc with
  | nil => simp
  | cons t ts ih =>
    simp [fbStep, ih, List.append_assoc, Nat.add_assoc]

/-- C4 counterexample: the regex fallback does NOT run on every
JSON-parse failure of the model client.  When `_extract_structured`
returns no JSON in `analyze_symbol_with_coordinates`, the method returns
the error dict of gemini.py:608-619 — empty `detections`,
`total_detections = 0`, no `fallback` flag — even though the raw response
text may mention the keywords: on text `"PF100 PF100"` the claimed
fallback would synthesize 2 detections. -/
theorem c4_counterexample :
    analyze_symbol_with_coordinates_result none =
      { error? := some "JSON解析エラー", detections? := some [],
        total? := some 0, coordinate_space? := none } ∧
    (enhanced_fallback_analysis "PF100 PF100" ["PF100", "PF150"]
        1000 800).total_detections = 2 :=
  ⟨rfl, by decide⟩

/-- C4, amended: the regex fallback runs when the RETRY path
(`_retry_with_flexible_prompt`, reached from
`analyze_image_with_coordinates`) fails to parse the model's JSON; there
it counts case-insensitive occurrences of every target keyword in the
raw text, records a per-keyword `<keyword>_count` entry, sums the counts
into `summary.total_detections`, and synthesizes one detection per
counted occurrence with `fallback=true` and confidence 0.3.  A JSON-parse
failure in `analyze_symbol_with_coordinates` instead returns an error
dict with empty detections and total 0 — no text fallback. -/
theorem c4_fallback_analysis (txt : String) (targets : List String)
    (w h : ℕ) :
    retry_with_flexible_prompt none txt targets w h =
      .fallbackGuess (enhanced_fallback_analysis txt targets w h) ∧
    (enhanced_fallback_analysis txt targets w h).keywordCounts =
      targets.map (fun t => (keywordKey t, fbCount t txt)) ∧
    (enhanced_fallback_analysis txt targets w h).total_detections =
      (targets.map (fun t => fbCount t txt)).sum ∧
    (enhanced_fallback_analysis txt targets w h).detections =
      targets.flatMap (fun t => fbDetsFor t txt w h) ∧
    (∀ t, (fbDetsFor t txt w h).length = fbCount t txt) ∧
    (enhanced_fallback_analysis txt targets w h).detections.length =
      (enhanced_fallback_analysis txt targets w h).total_detections ∧
    (∀ d ∈ (enhanced_fallback_analysis txt targets w h).detections,
      d.fallback = true ∧ d.confidence = 3/10) ∧
    (enhanced_fallback_analysis txt targets w h).fallback = true ∧
    analyze_symbol_with_coordinates_result none =
      { error? := some "JSON解析エラー", detections? := some [],
        total? := some 0, coordinate_space? := none } := by
  have hfold := fbFold_spec txt w h targets ([], [], 0)
  have hlen : ∀ t : String, (fbDetsFor t txt w h).length = fbCount t txt := by
    intro t
    simp [fbDetsFor]
  refine ⟨rfl, ?_, ?_, ?_, hlen, ?_, ?_, rfl, rfl⟩
  · simp [enhanced_fallback_analysis, hfold]
  · simp [enhanced_fallback_analysis, hfold]
  · simp [enhanced_fallback_analysis, hfold]
  · simp only [enhanced_fallback_analysis, hfold]
    simp [List.length_flatMap, hlen, Function.comp_def]
  · intro d hd
    simp only [enhanced_fallback_analysis, hfold, List.nil_append] at hd
    obtain ⟨t, _, hmem⟩ := List.mem_flatMap.mp hd
    simp only [fbDetsFor, List.mem_map] at hmem
    obtain ⟨i, _, rfl⟩ := hmem
    exact ⟨rfl, rfl⟩

/-! ## C3 and C6 — the compositor -/

/-- A mark is produced for a detection exactly when the PF filter and the
position check of lines 474-482 pass. -/
theorem drawMarkFor_isSome (w h : ℕ) (d : Det3) :
    (drawMarkFor w h d).isSome = pfEligible d := by
  rcases hp : d.position? with _ | pos
  · cases h1 : strContains (targetTypeOf d) "PF100" <;>
    cases h2 : strContains (targetTypeOf d) "PF150" <;>
    simp [drawMarkFor, pfEligible, hasXY, h1, h2, hp]
  · rcases hx : pos.x? with _ | px <;> rcases hy : pos.y? with _ | py <;>
    cases h1 : strContains (targetTypeOf d) "PF100" <;>
    cases h2 : strContains (targetTypeOf d) "PF150" <;>
    simp [drawMarkFor, pfEligible, hasXY, h1, h2, hp, hx, hy]

/-- `filterMap` keeps exactly the elements on which `f` fires. -/
theorem length_filterMap_isSome {α β : Type} (f : α → Option β)
    (l : List α) :
    (l.filterMap f).length = (l.filter (fun a => (f a).isSome)).length := by
  induction l with
  | nil => rfl
  | cons a l ih =>
    cases hf : f a <;> simp [List.filterMap_cons, List.filter_cons, hf, ih]

/-- The output entry of `_create_highlighted_images` for page image `i`. -/
theorem create_highlighted_images_get (images : List (ℕ × ℕ))
    (pages : List PageEntry) (i : ℕ) (hi : i < images.length) :
    (create_highlighted_images images pages)[i]? =
      some { page := i + 1,
             image_data :=
               .pngBase64 (images.get ⟨i, hi⟩).1 (images.get ⟨i, hi⟩).2
                 ((pagesData pages (i + 1 : ℤ)).filterMap
                   (drawMarkFor (images.get ⟨i, hi⟩).1 (images.get ⟨i, hi⟩).2)),
             detections := pagesData pages (i + 1 : ℤ) } := by
  have hg : images[i]? = some (images.get ⟨i, hi⟩) := by
    simp [List.getElem?_eq_getElem hi]
  simp [create_highlighted_images, List.getElem?_map, List.getElem?_enum, hg]

/-- C3 counterexample: a reported detection with no drawn mark.  One page
image of 1000 × 800 pixels; the model reports one detection on page 1
with target `"FD"` and position (100, 100).  The detection appears in the
entry's `detections` list, but `_create_highlighted_images` draws no mark
for it (the PF100/PF150 filter at src/src/main.py:479-480 skips it), so
the overlay silently drops a reported detection. -/
theorem c3_counterexample :
    create_highlighted_images [(1000, 800)]
        [{ page := 1,
           detections := [{ target? := some "FD", type? := none,
                            position? := some { x? := some 100, y? := some 100 } }] }] =
      [{ page := 1,
         image_data := .pngBase64 1000 800 [],
         detections := [{ target? := some "FD", type? := none,
                          position? := some { x? := some 100, y? := some 100 } }] }] := by
  rfl

/-- C3, amended: `_create_highlighted_images` draws a mark exactly for
the detections whose `target`/`type` mentions PF100 or PF150 and whose
`position` carries both `x` and `y`; every other reported detection is
passed through in the entry's `detections` list but gets no overlay. -/
theorem c3_marks_exactly_for_pf_detections (images : List (ℕ × ℕ))
    (pages : List PageEntry) (i : ℕ) (hi : i < images.length) :
    ∃ wh, images.get? i = some wh ∧
      (create_highlighted_images images pages)[i]? =
        some { page := i + 1,
               image_data :=
                 .pngBase64 wh.1 wh.2
                   ((pagesData pages (i + 1 : ℤ)).filterMap
                     (drawMarkFor wh.1 wh.2)),
               detections := pagesData pages (i + 1 : ℤ) } ∧
      ((pagesData pages (i + 1 : ℤ)).filterMap (drawMarkFor wh.1 wh.2)).length =
        ((pagesData pages (i + 1 : ℤ)).filter pfEligible).length ∧
      ∀ d ∈ pagesData pages (i + 1 : ℤ),
        (drawMarkFor wh.1 wh.2 d).isSome = pfEligible d := by
  refine ⟨images.get ⟨i, hi⟩, ?_, create_highlighted_images_get images pages i hi,
    ?_, fun d _ => drawMarkFor_isSome _ _ d⟩
  · simp [List.get?_eq_getElem?, List.getElem?_eq_getElem hi]
  · rw [length_filterMap_isSome]
    congr 1
    exact List.filter_congr fun d _ => drawMarkFor_isSome _ _ d

/-- Concrete instance of `c3_marks_exactly_for_pf_detections`: one page
with one PF100 detection and one FD detection — exactly one mark. -/
theorem c3_witness :
    ∃ wh, [((1000 : ℕ), (800 : ℕ))].get? 0 = some wh ∧
      (create_highlighted_images [(1000, 800)]
        [{ page := 1,
           detections :=
             [{ target? := some "PF100", type? := none,
                position? := some { x? := some 500, y? := some 250 } },
              { target? := some "FD", type? := none,
                position? := some { x? := some 100, y? := some 100 } }] }])[0]? =
        some { page := 1,
               image_data :=
                 .pngBase64 wh.1 wh.2
                   ((pagesData
                       [{ page := 1,
                          detections :=
                            [{ target? := some "PF100", type? := none,
                               position? := some { x? := some 500, y? := some 250 } },
                             { target? := some "FD", type? := none,
                               position? := some { x? := some 100, y? := some 100 } }] }]
                       (1 : ℤ)).filterMap (drawMarkFor wh.1 wh.2)),
               detections :=
                 pagesData
                   [{ page := 1,
                      detections :=
                        [{ target? := some "PF100", type? := none,
                           position? := some { x? := some 500, y? := some 250 } },
                         { target? := some "FD", type? := none,
                           position? := some { x? := some 100, y? := some 100 } }] }]
                   (1 : ℤ) } ∧
      ((pagesData
          [{ page := 1,
             detections :=
               [{ target? := some "PF100", type? := none,
                  position? := some { x? := some 500, y? := some 250 } },
                { target? := some "FD", type? := none,
                  position? := some { x? := some 100, y? := some 100 } }] }]
          (1 : ℤ)).filterMap (drawMarkFor wh.1 wh.2)).length =
        ((pagesData
            [{ page := 1,
               detections :=
                 [{ target? := some "PF100", type? := none,
                    position? := some { x? := some 500, y? := some 250 } },
                  { target? := some "FD", type? := none,
                    position? := some { x? := some 100, y? := some 100 } }] }]
            (1 : ℤ)).filter pfEligible).length ∧
      ∀ d ∈ pagesData
          [{ page := 1,
             detections :=
               [{ target? := some "PF100", type? := none,
                  position? := some { x? := some 500, y? := some 250 } },
                { target? := some "FD", type? := none,
                  position? := some { x? := some 100, y? := some 100 } }] }]
          (1 : ℤ),
        (drawMarkFor wh.1 wh.2 d).isSome = pfEligible d :=
  c3_marks_exactly_for_pf_detections [(1000, 800)] _ 0 (by decide)

/-- The mark drawn for a detection that passes the PF filter and has a
position: center `int(x * img_w / 1000), int(y * img_h / 1000)`
(src/src/main.py:484-485), colors by target (lines 488-493), radius
`max(30, min(w, h) // 35)` (line 496). -/
theorem drawMarkFor_of_pos (w h : ℕ) (d : Det3) (pos : Pos) (px py : ℚ)
    (hp : d.position? = some pos) (hx : pos.x? = some px)
    (hy : pos.y? = some py)
    (hpf : (strContains (targetTypeOf d) "PF100" ||
            strContains (targetTypeOf d) "PF150") = true) :
    drawMarkFor w h d =
      some { cx := pyInt (px * w / 1000)
             cy := pyInt (py * h / 1000)
             color := if strContains (targetTypeOf d) "PF100" then "red" else "blue"
             outline :=
               if strContains (targetTypeOf d) "PF100" then "darkred" else "darkblue"
             radius := max 30 (min w h / 35) } := by
  cases h1 : strContains (targetTypeOf d) "PF100" <;>
  cases h2 : strContains (targetTypeOf d) "PF150" <;>
  simp_all [drawMarkFor]

/-- C6 counterexample: a well-formed detection whose position is never
mapped to pixels.  The model reports, on page 1 of a single 500 × 500
page image, one detection with target `"pf100"` (lower case) and
normalized position (250, 250) ∈ [0,1000]².  The PF filter of
src/src/main.py:479-480 is case-sensitive, so the compositor draws no
shape for it: the entry carries the detection but an empty overlay. -/
theorem c6_counterexample :
    create_highlighted_images [(500, 500)]
        [{ page := 1,
           detections := [{ target? := some "pf100", type? := none,
                            position? := some { x? := some 250, y? := some 250 } }] }] =
      [{ page := 1,
         image_data := .pngBase64 500 500 [],
         detections := [{ target? := some "pf100", type? := none,
                          position? := some { x? := some 250, y? := some 250 } }] }] := by
  rfl

/-- C6, amended: for every image list and detection data,
`_create_highlighted_images` returns exactly one entry per input page
image with page numbers 1..n in input order, whose `image_data` is the
PNG- then base64-encoded copy of the page image with the drawn marks;
each DRAWN detection (target/type containing `PF100` or `PF150`
case-sensitively, with `position.x` and `position.y` present) is mapped
to pixel center `int(x * image_width / 1000), int(y * image_height / 1000)`. -/
theorem c6_compositor_output (images : List (ℕ × ℕ))
    (pages : List PageEntry) :
    (create_highlighted_images images pages).length = images.length ∧
    (∀ i, i < images.length → ∃ wh, images.get? i = some wh ∧
      (create_highlighted_images images pages)[i]? =
        some { page := i + 1,
               image_data :=
                 .pngBase64 wh.1 wh.2
                   ((pagesData pages (i + 1 : ℤ)).filterMap
                     (drawMarkFor wh.1 wh.2)),
               detections := pagesData pages (i + 1 : ℤ) }) ∧
    (∀ (w h : ℕ) (d : Det3) (pos : Pos) (px py : ℚ),
      d.position? = some pos → pos.x? = some px → pos.y? = some py →
      (strContains (targetTypeOf d) "PF100" ||
        strContains (targetTypeOf d) "PF150") = true →
      drawMarkFor w h d =
        some { cx := pyInt (px * w / 1000)
               cy := pyInt (py * h / 1000)
               color :=
                 if strContains (targetTypeOf d) "PF100" then "red" else "blue"
               outline :=
                 if strContains (targetTypeOf d) "PF100" then "darkred"
                 else "darkblue"
               radius := max 30 (min w h / 35) }) := by
  refine ⟨by simp [create_highlighted_images], fun i hi => ?_,
    fun w h d pos px py hp hx hy hpf => drawMarkFor_of_pos w h d pos px py hp hx hy hpf⟩
  refine ⟨images.get ⟨i, hi⟩, ?_, create_highlighted_images_get images pages i hi⟩
  simp [List.get?_eq_getElem?, List.getElem?_eq_getElem hi]

/-! ## C10 — `_to_pixel_bbox` stays inside the image -/

/-- `clip_and_pack` (gemini.py:114-122) yields only rectangles inside
the `img_w × img_h` image, whatever integers come in. -/
theorem clip_and_pack_bounds (img_w img_h x y w h : ℤ)
    (hw : 1 ≤ img_w) (hh : 1 ≤ img_h) :
    clip_and_pack img_w img_h x y w h = none ∨
    ∃ x' y' w' h',
      clip_and_pack img_w img_h x y w h = some (x', y', w', h') ∧
      0 ≤ x' ∧ x' ≤ img_w - 1 ∧ 0 ≤ y' ∧ y' ≤ img_h - 1 ∧
      1 ≤ w' ∧ w' ≤ img_w - x' ∧ 1 ≤ h' ∧ h' ≤ img_h - y' := by
  unfold clip_and_pack
  split
  · exact Or.inl rfl
  · right
    refine ⟨_, _, _, _, rfl, ?_, ?_, ?_, ?_, ?_, ?_, ?_, ?_⟩ <;> omega

/-- C10: for every accepted bbox shape and image of size at least 1 × 1,
`_to_pixel_bbox` returns `None` or a pixel rectangle `(x, y, w, h)` with
`0 ≤ x ≤ img_w - 1`, `0 ≤ y ≤ img_h - 1`, `1 ≤ w ≤ img_w - x` and
`1 ≤ h ≤ img_h - y`: every rectangle it produces lies entirely within
the image bounds. -/
theorem c10_to_pixel_bbox_in_bounds (raw : RawBBox) (img_w img_h : ℤ)
    (hw : 1 ≤ img_w) (hh : 1 ≤ img_h) :
    to_pixel_bbox raw img_w img_h = none ∨
    ∃ x y w h, to_pixel_bbox raw img_w img_h = some (x, y, w, h) ∧
      0 ≤ x ∧ x ≤ img_w - 1 ∧ 0 ≤ y ∧ y ≤ img_h - 1 ∧
      1 ≤ w ∧ w ≤ img_w - x ∧ 1 ≤ h ∧ h ≤ img_h - y := by
  cases raw with
  | dictBox2d ymin xmin ymax xmax =>
    simp only [to_pixel_bbox]
    exact clip_and_pack_bounds _ _ _ _ _ _ hw hh
  | dictXYWH x y w h =>
    simp only [to_pixel_bbox]
    exact clip_and_pack_bounds _ _ _ _ _ _ hw hh
  | dictXYXY x1 y1 x2 y2 =>
    simp only [to_pixel_bbox]
    exact clip_and_pack_bounds _ _ _ _ _ _ hw hh
  | listVals a b c d =>
    simp only [to_pixel_bbox]
    split
    · exact clip_and_pack_bounds _ _ _ _ _ _ hw hh
    · exact clip_and_pack_bounds _ _ _ _ _ _ hw hh
  | unrecognized => exact Or.inl rfl

/-- Concrete instance of `c10_to_pixel_bbox_in_bounds`: an `x/y/w/h`
dict on a 1000 × 800 image. -/
theorem c10_witness :
    to_pixel_bbox (.dictXYWH 100 100 50 50) 1000 800 = none ∨
    ∃ x y w h,
      to_pixel_bbox (.dictXYWH 100 100 50 50) 1000 800 = some (x, y, w, h) ∧
      0 ≤ x ∧ x ≤ 1000 - 1 ∧ 0 ≤ y ∧ y ≤ 800 - 1 ∧
      1 ≤ w ∧ w ≤ 1000 - x ∧ 1 ≤ h ∧ h ≤ 800 - y :=
  c10_to_pixel_bbox_in_bounds (.dictXYWH 100 100 50 50) 1000 800
    (by norm_num) (by norm_num)

/-! ## C5 — simulated AI coordinates stay inside the 50pt margin -/

/-- Counting elements with a given page index in a per-page block
decomposition: block `i` contributes only page-`i` elements, so the
page-`p` count is block `p`'s size when `p` is among the enumerated
indices, and 0 otherwise. -/
theorem count_flatMap_enumFrom (g : ℕ × (ℚ × ℚ) → List Coordinate)
    (n : ℕ → ℕ) (hpage : ∀ pwh c, c ∈ g pwh → c.page = pwh.1)
    (hlen : ∀ pwh, (g pwh).length = n pwh.1) (p : ℕ) :
    ∀ (s : ℕ) (pages : List (ℚ × ℚ)),
      (((List.enumFrom s pages).flatMap g).filter
          fun c => c.page == p).length =
        if s ≤ p ∧ p < s + pages.length then n p else 0 := by
  intro s pages
  induction pages generalizing s with
  | nil => simp; rw [if_neg (by omega)]
  | cons wh rest ih =>
    have hblock :
        ((g (s, wh)).filter fun c => c.page == p).length =
          if s = p then n p else 0 := by
      rcases eq_or_ne s p with rfl | hne
      · rw [List.filter_eq_self.mpr fun c hc => by
          simp [hpage (s, wh) c hc]]
        simp [hlen]
      · rw [if_neg hne, List.length_eq_zero]
        refine List.filter_eq_nil_iff.mpr fun c hc => ?_
        simp [hpage (s, wh) c hc, hne]
    simp only [List.enumFrom, List.flatMap_cons, List.filter_append,
      List.length_append, hblock, ih, List.length_cons]
    split_ifs <;> omega

/-- Every simulated coordinate comes from one page's block: its page
index addresses a real page and its components are the two
`random.uniform(margin, size - margin)` draws for that page. -/
theorem simulate_ai_analysis_mem (pages : List (ℚ × ℚ)) (nrand : ℕ → ℕ)
    (ux uy : ℚ → ℚ → ℕ → ℕ → ℚ) (c : Coordinate)
    (hc : c ∈ simulate_ai_analysis pages nrand ux uy) :
    ∃ wh j, pages.get? c.page = some wh ∧
      c.x = ux 50 (wh.1 - 50) c.page j ∧
      c.y = uy 50 (wh.2 - 50) c.page j := by
  unfold simulate_ai_analysis at hc
  obtain ⟨⟨i, wh⟩, hmem, hin⟩ := List.mem_flatMap.mp hc
  obtain ⟨j, _, rfl⟩ := List.mem_map.mp hin
  refine ⟨wh, j, ?_, rfl, rfl⟩
  simpa using List.mem_enum_iff_getElem?.mp hmem

/-- C5: with the random oracle ranges guaranteed by `random.randint(1,5)`
and `random.uniform(lo, hi)` (for `lo ≤ hi`), on every document whose
pages are all wider and taller than 100 points, `simulate_ai_analysis`
yields, for each page index `p`, between 1 and 5 coordinates with
`page = p`, each with `x ∈ [50, width - 50]` and `y ∈ [50, height - 50]`
for that page's size. -/
theorem c5_simulated_coordinates_in_margin (pages : List (ℚ × ℚ))
    (nrand : ℕ → ℕ) (ux uy : ℚ → ℚ → ℕ → ℕ → ℚ)
    (hn : ∀ p, 1 ≤ nrand p ∧ nrand p ≤ 5)
    (hux : ∀ lo hi p j, lo ≤ hi → lo ≤ ux lo hi p j ∧ ux lo hi p j ≤ hi)
    (huy : ∀ lo hi p j, lo ≤ hi → lo ≤ uy lo hi p j ∧ uy lo hi p j ≤ hi)
    (hpages : ∀ wh ∈ pages, (100 : ℚ) < wh.1 ∧ (100 : ℚ) < wh.2)
    (p : ℕ) (hp : p < pages.length) :
    1 ≤ ((simulate_ai_analysis pages nrand ux uy).filter
          fun c => c.page == p).length ∧
    ((simulate_ai_analysis pages nrand ux uy).filter
          fun c => c.page == p).length ≤ 5 ∧
    ∀ c ∈ simulate_ai_analysis pages nrand ux uy, c.page = p →
      ∃ wh, pages.get? p = some wh ∧
        50 ≤ c.x ∧ c.x ≤ wh.1 - 50 ∧ 50 ≤ c.y ∧ c.y ≤ wh.2 - 50 := by
  have hcount : ((simulate_ai_analysis pages nrand ux uy).filter
      fun c => c.page == p).length = nrand p := by
    unfold simulate_ai_analysis
    rw [List.enum]
    rw [count_flatMap_enumFrom _ nrand
      (fun pwh c hc => by
        obtain ⟨j, _, rfl⟩ := List.mem_map.mp hc
        rfl)
      (fun pwh => by simp) p 0 pages]
    rw [if_pos ⟨Nat.zero_le p, by omega⟩]
  refine ⟨hcount ▸ (hn p).1, hcount ▸ (hn p).2, fun c hc hcp => ?_⟩
  obtain ⟨wh, j, hget, hx, hy⟩ :=
    simulate_ai_analysis_mem pages nrand ux uy c hc
  rw [hcp] at hget
  have hwh : wh ∈ pages := List.get?_mem hget
  obtain ⟨h1, h2⟩ := hpages wh hwh
  have hxb := hux 50 (wh.1 - 50) c.page j (by linarith)
  have hyb := huy 50 (wh.2 - 50) c.page j (by linarith)
  exact ⟨wh, hget, hx ▸ hxb.1, hx ▸ hxb.2, hy ▸ hyb.1, hy ▸ hyb.2⟩

/-- Concrete instance of `c5_simulated_coordinates_in_margin`: one
200 × 300 page, two highlights per page, `uniform` returning its lower
bound for `x` and its upper bound for `y`. -/
theorem c5_witness :
    1 ≤ ((simulate_ai_analysis [((200 : ℚ), (300 : ℚ))] (fun _ => 2)
          (fun lo _ _ _ => lo) (fun _ hi _ _ => hi)).filter
          fun c => c.page == 0).length ∧
    ((simulate_ai_analysis [((200 : ℚ), (300 : ℚ))] (fun _ => 2)
          (fun lo _ _ _ => lo) (fun _ hi _ _ => hi)).filter
          fun c => c.page == 0).length ≤ 5 ∧
    ∀ c ∈ simulate_ai_analysis [((200 : ℚ), (300 : ℚ))] (fun _ => 2)
          (fun lo _ _ _ => lo) (fun _ hi _ _ => hi), c.page = 0 →
      ∃ wh, [((200 : ℚ), (300 : ℚ))].get? 0 = some wh ∧
        50 ≤ c.x ∧ c.x ≤ wh.1 - 50 ∧ 50 ≤ c.y ∧ c.y ≤ wh.2 - 50 :=
  c5_simulated_coordinates_in_margin [((200 : ℚ), (300 : ℚ))]
    (fun _ => 2) (fun lo _ _ _ => lo) (fun _ hi _ _ => hi)
    (fun _ => ⟨by norm_num, by norm_num⟩)
    (fun lo hi p j hle => ⟨le_refl lo, hle⟩)
    (fun lo hi p j hle => ⟨hle, le_refl hi⟩)
    (by intro wh hwh; simp at hwh; subst hwh; constructor <;> norm_num)
    0 (by norm_num)
